import Mathlib

/-!
Shallow embedding of the omnia teleop command router.

Python strings are modelled as `List Char` (ASCII in all relevant inputs),
JSON values as the inductive `JValue`, joint positions as `ℚ` (the reference
code uses floats; the spec reasons about exact per-step deltas), and the
external serial device / JSON parser as explicitly passed oracles
(`SerialBehavior`, a `parse` function), since those live outside the
repository.  Code that can raise a Python exception is embedded in
`Except Unit`; the top-level handlers catch every exception, mirroring the
`try/except` wrappers in `handle_teleop_message`.
-/

/-- Characters removed by Python `str.strip()` (ASCII whitespace). -/
def isPySpace (c : Char) : Bool :=
  c = ' ' || c = Char.ofNat 9 || c = Char.ofNat 10 || c = Char.ofNat 13 ||
  c = Char.ofNat 11 || c = Char.ofNat 12

/-- Python `str.lower()` on one ASCII character. -/
def pyLowerChar (c : Char) : Char :=
  if 'A' ≤ c ∧ c ≤ 'Z' then Char.ofNat (c.toNat + 32) else c

/-- Python `str.upper()` on one ASCII character (used only to build the
uppercase input variants of claim C10). -/
def pyUpperChar (c : Char) : Char :=
  if 'a' ≤ c ∧ c ≤ 'z' then Char.ofNat (c.toNat - 32) else c

/-- Python `str.strip()`: drop leading and trailing whitespace. -/
def pyStrip (s : List Char) : List Char :=
  ((s.dropWhile isPySpace).reverse.dropWhile isPySpace).reverse

/-- The normalisation `key.lower().strip()` done by `JointJogNode.handle_key`
in `teleop_gzb.py` line 79. -/
def normKey (s : List Char) : List Char :=
  pyStrip (s.map pyLowerChar)

/-- JSON values as produced by `json.loads`.  An `obj` field list stands for a
Python dict, so its keys are distinct. -/
inductive JValue where
  | null
  | bool (b : Bool)
  | num (q : ℚ)
  | str (s : List Char)
  | arr (xs : List JValue)
  | obj (fields : List (List Char × JValue))

/-- Python dict `get`: look a key up in an `obj` field list (`none` = Python
`None` for a missing key). -/
def jlookup (fields : List (List Char × JValue)) (k : List Char) : Option JValue :=
  match fields with
  | [] => none
  | (k', v) :: rest => if k' = k then some v else jlookup rest k

/-- Python truthiness of a JSON value (`if not key: ...`). -/
def jFalsy : JValue → Bool
  | .null => true
  | .bool b => !b
  | .num q => q = 0
  | .str s => s.isEmpty
  | .arr xs => xs.isEmpty
  | .obj fs => fs.isEmpty

-- ---------- teleop_gzb.py : ROS2 joint jog ----------

/-- `JOINT_NAMES` from `teleop_gzb.py` line 37. -/
def JOINT_NAMES : List (List Char) :=
  ["joint1".toList, "joint2".toList, "joint3".toList, "joint4".toList,
   "joint5".toList, "joint6".toList, "joint7".toList]

/-- `KEYMAP` from `teleop_gzb.py` lines 42-50: key → (joint index, sign). -/
def KEYMAP : List (List Char × Nat × Int) :=
  [(['q'], 0, 1), (['a'], 0, -1),
   (['w'], 1, 1), (['s'], 1, -1),
   (['e'], 2, 1), (['d'], 2, -1),
   (['r'], 3, 1), (['f'], 3, -1),
   (['t'], 4, 1), (['g'], 4, -1),
   (['y'], 5, 1), (['h'], 5, -1),
   (['u'], 6, 1), (['j'], 6, -1)]

/-- `STOP_KEYS` from `teleop_gzb.py` line 52. -/
def STOP_KEYS : List (List Char) := [[' '], ['x']]

/-- Association-list lookup used for `KEYMAP[k]` / `k in KEYMAP`. -/
def alookup (k : List Char) : List (List Char × Nat × Int) → Option (Nat × Int)
  | [] => none
  | (k', v) :: rest => if k = k' then some v else alookup k rest

/-- One trajectory point: `positions = self.q[:]` plus the fixed
`time_from_start` split (`TFS = 0.4` → sec 0, nanosec 400000000). -/
structure TrajPoint where
  positions : List ℚ
  sec : Int
  nanosec : Int
deriving DecidableEq

/-- The `JointTrajectory` message built by `publish_target`. -/
structure TrajMsg where
  joint_names : List (List Char)
  points : List TrajPoint
deriving DecidableEq

/-- `JointJogNode.publish_target` (`teleop_gzb.py` lines 64-74): wrap the
current joint vector into one trajectory message. -/
def publish_target (q : List ℚ) : TrajMsg :=
  ⟨JOINT_NAMES, [⟨q, 0, 400000000⟩]⟩

/-- The mutable state of `JointJogNode`: the joint target vector `self.q`. -/
structure JogNode where
  q : List ℚ
deriving DecidableEq

/-- `JointJogNode.handle_key` (`teleop_gzb.py` lines 76-94) on a string key,
parameterised by the step size `s` (`STEP_RAD` in the code).  Returns the
updated node and the list of messages published during the call. -/
def handle_key (s : ℚ) (node : JogNode) (key : List Char) : JogNode × List TrajMsg :=
  if key = [] then (node, [])
  else
    let k := normKey key
    if k ∈ STOP_KEYS then (node, [publish_target node.q])
    else
      match alookup k KEYMAP with
      | none => (node, [])
      | some (idx, sgn) =>
        let q' := node.q.set idx (node.q.getD idx 0 + (sgn : ℚ) * s)
        (⟨q'⟩, [publish_target q'])

/-- Fold `handle_key` over a sequence of key strings, discarding publishes. -/
def run_keys (s : ℚ) (node : JogNode) (ks : List (List Char)) : JogNode :=
  ks.foldl (fun n k => (handle_key s n k).1) node

-- ---------- teleop_bak.py : Arduino serial link ----------

/-- The hardware link session: `arduino_ser` is either `None`
(`connected = false`) or an open handle on `port`. -/
structure ArduinoState where
  connected : Bool
  port : Option (List Char)
deriving DecidableEq

/-- Behaviour of the external serial device during one `send_cmd_to_arduino`
call: whether `arduino_ser.write` succeeds or raises. -/
structure SerialBehavior where
  writeOk : Bool
deriving DecidableEq

/-- What one `send_cmd_to_arduino` call did. -/
inductive SendOutcome where
  | notConnected
  | sent
  | errorLogged
deriving DecidableEq

/-- `find_arduino_port` (`teleop_bak.py` lines 35-62): scan the candidate
device paths and return the first that probes without raising; `probe_ok`
abstracts the open/ping/read probe of the external serial library. -/
def find_arduino_port (candidates : List (List Char)) (probe_ok : List Char → Bool) :
    Option (List Char) :=
  candidates.find? probe_ok

/-- Result of `init_arduino`. -/
inductive InitOutcome where
  | noDeviceFound
  | connected (port : List Char)
  | openFailed (port : List Char)
deriving DecidableEq

/-- `init_arduino` (`teleop_bak.py` lines 65-86): discover a port and open it;
on any failure `arduino_ser` stays `None`. -/
def init_arduino (candidates : List (List Char)) (probe_ok open_ok : List Char → Bool) :
    ArduinoState × InitOutcome :=
  match find_arduino_port candidates probe_ok with
  | none => (⟨false, none⟩, .noDeviceFound)
  | some p =>
    if open_ok p then (⟨true, some p⟩, .connected p)
    else (⟨false, none⟩, .openFailed p)

/-- `send_cmd_to_arduino` (`teleop_bak.py` lines 89-113).  Returns the new
session state, the lines written to the device, and the outcome.  When
`arduino_ser is None` it logs and returns; on a write exception the handler
catches and logs it — note the session state is left untouched in every
branch, exactly as in the source (the `except` clause never clears
`arduino_ser`).  The best-effort reply read is log-only and not modelled. -/
def send_cmd_to_arduino (beh : SerialBehavior) (st : ArduinoState) (cmd : List Char) :
    ArduinoState × List (List Char) × SendOutcome :=
  if st.connected = false then (st, [], .notConnected)
  else if beh.writeOk then (st, [cmd ++ ['\n']], .sent)
  else (st, [], .errorLogged)

/-- The discrete-motion allow-list of `handle_teleop_message`
(`teleop_bak.py` line 148). -/
def ALLOWED_CMDS : List (List Char) :=
  ["forward".toList, "backward".toList, "left".toList, "right".toList]

/-- One inbound PubSub message: the `"message"` payload string (absent or
`None` → `none`) and the `"senderId"`. -/
structure PubSubMessage where
  message : Option (List Char)
  senderId : Option (List Char)

/-- What one `handle_teleop_message` call in `teleop_bak.py` did. -/
inductive TeleopOutcome where
  | noMessage
  | forwarded (cmd : List Char) (send : SendOutcome)
  | ignoredUnknown
  | errorCaught
deriving DecidableEq

/-- Full observable result of `handle_teleop_message` in `teleop_bak.py`:
outcome, session state, lines written to the device, and — for the retry
policy — how many `connect()`/`init_arduino` calls and how many
`send_cmd_to_arduino` calls the handler performed. -/
structure BakResult where
  outcome : TeleopOutcome
  state : ArduinoState
  writes : List (List Char)
  connect_calls : Nat
  send_calls : Nat
deriving DecidableEq

/-- Body of `handle_teleop_message` (`teleop_bak.py` lines 118-151), i.e. the
code inside the `try`.  `parse` abstracts `json.loads` (`.error` = it raised).
`data.get("cmd")` raises `AttributeError` when the decoded value is not a
dict, hence the `.error` on non-`obj` values.  The source never calls
`init_arduino` here and calls `send_cmd_to_arduino` at most once, so
`connect_calls` is 0 and `send_calls` is at most 1 on every path. -/
def bak_handle_body (parse : List Char → Except Unit JValue) (beh : SerialBehavior)
    (st : ArduinoState) (msg : PubSubMessage) : Except Unit BakResult :=
  match msg.message with
  | none => .ok ⟨.noMessage, st, [], 0, 0⟩
  | some p =>
    if p = [] then .ok ⟨.noMessage, st, [], 0, 0⟩
    else
      match parse p with
      | .error e => .error e
      | .ok (.obj fields) =>
        match jlookup fields ("cmd".toList) with
        | some (.str c) =>
          if c ∈ ALLOWED_CMDS then
            let r := send_cmd_to_arduino beh st c
            .ok ⟨.forwarded c r.2.2, r.1, r.2.1, 0, 1⟩
          else .ok ⟨.ignoredUnknown, st, [], 0, 0⟩
        | _ => .ok ⟨.ignoredUnknown, st, [], 0, 0⟩
      | .ok _ => .error ()

/-- `handle_teleop_message` of `teleop_bak.py` with its outer
`try/except`: any exception is caught and logged, leaving the session
untouched with nothing written. -/
def bak_handle_teleop_message (parse : List Char → Except Unit JValue)
    (beh : SerialBehavior) (st : ArduinoState) (msg : PubSubMessage) : BakResult :=
  match bak_handle_body parse beh st msg with
  | .error _ => ⟨.errorCaught, st, [], 0, 0⟩
  | .ok r => r

-- ---------- teleop_gzb.py : the PubSub handler ----------

/-- What one `handle_teleop_message` call in `teleop_gzb.py` did. -/
inductive GzbOutcome where
  | noMessage
  | rosNotReady
  | keyHandled
  | errorCaught
deriving DecidableEq

/-- Full observable result of `handle_teleop_message` in `teleop_gzb.py`. -/
structure GzbResult where
  outcome : GzbOutcome
  node : Option JogNode
  publishes : List TrajMsg
deriving DecidableEq

/-- `JointJogNode.handle_key` applied to the raw value of the `"key"` field:
`if not key: return`, then `key.lower()` raises `AttributeError` when `key`
is a truthy non-string. -/
def handle_key_value (s : ℚ) (node : JogNode) (key : JValue) :
    Except Unit (JogNode × List TrajMsg) :=
  if jFalsy key then .ok (node, [])
  else
    match key with
    | .str k => .ok (handle_key s node k)
    | _ => .error ()

/-- Body of `handle_teleop_message` (`teleop_gzb.py` lines 106-138), i.e. the
code inside the `try`.  `node = none` models `ros_node is None`; absent
`"key"` becomes Python `None` (`JValue.null`). -/
def gzb_handle_body (parse : List Char → Except Unit JValue) (s : ℚ)
    (node : Option JogNode) (msg : PubSubMessage) : Except Unit GzbResult :=
  match msg.message with
  | none => .ok ⟨.noMessage, node, []⟩
  | some p =>
    if p = [] then .ok ⟨.noMessage, node, []⟩
    else
      match parse p with
      | .error e => .error e
      | .ok (.obj fields) =>
        let keyv := (jlookup fields ("key".toList)).getD .null
        match node with
        | none => .ok ⟨.rosNotReady, none, []⟩
        | some n =>
          match handle_key_value s n keyv with
          | .error e => .error e
          | .ok (n', pubs) => .ok ⟨.keyHandled, some n', pubs⟩
      | .ok _ => .error ()

/-- `handle_teleop_message` of `teleop_gzb.py` with its outer `try/except`. -/
def gzb_handle_teleop_message (parse : List Char → Except Unit JValue) (s : ℚ)
    (node : Option JogNode) (msg : PubSubMessage) : GzbResult :=
  match gzb_handle_body parse s node msg with
  | .error _ => ⟨.errorCaught, node, []⟩
  | .ok r => r

-- ---------- helper lemmas ----------

theorem handle_key_nil (s : ℚ) (node : JogNode) : handle_key s node [] = (node, []) := rfl

theorem handle_key_stop (s : ℚ) (node : JogNode) (key : List Char)
    (hne : key ≠ []) (hstop : normKey key ∈ STOP_KEYS) :
    handle_key s node key = (node, [publish_target node.q]) := by
  simp only [handle_key, if_neg hne, if_pos hstop]

theorem handle_key_jog (s : ℚ) (node : JogNode) (key : List Char) (idx : Nat) (sgn : Int)
    (hne : key ≠ []) (hstop : normKey key ∉ STOP_KEYS)
    (hlook : alookup (normKey key) KEYMAP = some (idx, sgn)) :
    handle_key s node key =
      (⟨node.q.set idx (node.q.getD idx 0 + (sgn : ℚ) * s)⟩,
       [publish_target (node.q.set idx (node.q.getD idx 0 + (sgn : ℚ) * s))]) := by
  simp only [handle_key, if_neg hne, if_neg hstop, hlook]

theorem handle_key_unknown (s : ℚ) (node : JogNode) (key : List Char)
    (hne : key ≠ []) (hstop : normKey key ∉ STOP_KEYS)
    (hlook : alookup (normKey key) KEYMAP = none) :
    handle_key s node key = (node, []) := by
  simp only [handle_key, if_neg hne, if_neg hstop, hlook]

theorem handle_key_congr (s : ℚ) (node : JogNode) (k1 k2 : List Char)
    (h1 : k1 ≠ []) (h2 : k2 ≠ []) (h : normKey k1 = normKey k2) :
    handle_key s node k1 = handle_key s node k2 := by
  simp only [handle_key, if_neg h1, if_neg h2, h]

theorem handle_key_length (s : ℚ) (node : JogNode) (key : List Char) :
    ((handle_key s node key).1).q.length = node.q.length := by
  by_cases hne : key = []
  · subst hne; rfl
  · by_cases hstop : normKey key ∈ STOP_KEYS
    · rw [handle_key_stop s node key hne hstop]
    · cases hlook : alookup (normKey key) KEYMAP with
      | none => rw [handle_key_unknown s node key hne hstop hlook]
      | some p =>
        rw [handle_key_jog s node key p.1 p.2 hne hstop (by rw [hlook])]
        simp [List.length_set]

theorem run_keys_cons (s : ℚ) (node : JogNode) (k : List Char) (ks : List (List Char)) :
    run_keys s node (k :: ks) = run_keys s (handle_key s node k).1 ks := rfl

theorem run_keys_length (s : ℚ) (node : JogNode) (ks : List (List Char)) :
    (run_keys s node ks).q.length = node.q.length := by
  induction ks generalizing node with
  | nil => rfl
  | cons k ks ih => rw [run_keys_cons, ih, handle_key_length]

theorem getD_set_self (l : List ℚ) (i : Nat) (x : ℚ) (h : i < l.length) :
    (l.set i x).getD i 0 = x := by
  simp [List.getD_eq_getElem?_getD, List.getElem?_set_eq_of_lt x h]

theorem getD_set_ne (l : List ℚ) (i j : Nat) (x : ℚ) (h : i ≠ j) :
    (l.set i x).getD j 0 = l.getD j 0 := by
  simp [List.getD_eq_getElem?_getD, List.getElem?_set_ne h]

/-- Every entry of `KEYMAP` is a nonempty key that normalisation leaves
unchanged, that is not a stop key, whose lookup returns its own entry, and
whose joint index is below 7. -/
theorem keymap_entry_facts : ∀ e ∈ KEYMAP,
    e.1 ≠ [] ∧ normKey e.1 = e.1 ∧ e.1 ∉ STOP_KEYS ∧
    alookup e.1 KEYMAP = some e.2 ∧ e.2.1 < 7 := by decide

/-- Uppercasing or space-padding a `KEYMAP` key leaves it nonempty and does
not change its normalisation. -/
theorem keymap_variant_facts : ∀ e ∈ KEYMAP,
    e.1.map pyUpperChar ≠ [] ∧ e.1 ++ [' '] ≠ [] ∧ [' '] ++ e.1 ≠ [] ∧
    normKey (e.1.map pyUpperChar) = normKey e.1 ∧
    normKey (e.1 ++ [' ']) = normKey e.1 ∧
    normKey ([' '] ++ e.1) = normKey e.1 := by decide

theorem run_keys_nil (s : ℚ) (node : JogNode) : run_keys s node [] = node := rfl

theorem str_not_allowed (c : List Char) (h : c ∉ ALLOWED_CMDS) :
    ∀ d ∈ ALLOWED_CMDS, (some (JValue.str c) : Option JValue) ≠ some (JValue.str d) := by
  intro d hd heq
  injection heq with h1
  injection h1 with h2
  exact h (h2 ▸ hd)

/-- Pressing `q` n times adds `n * s` to the head joint and touches nothing
else. -/
theorem run_keys_replicate_q (s : ℚ) (n : Nat) (x : ℚ) (rest : List ℚ) :
    run_keys s ⟨x :: rest⟩ (List.replicate n ['q']) = ⟨(x + n * s) :: rest⟩ := by
  induction n generalizing x with
  | zero => simp [run_keys_nil]
  | succ n ih =>
    rw [List.replicate_succ, run_keys_cons,
      handle_key_jog s ⟨x :: rest⟩ ['q'] 0 1 (by decide) (by decide) (by decide)]
    simp only [List.getD_cons_zero, List.set_cons_zero, Int.cast_one, one_mul]
    rw [ih]
    congr 1
    push_cast
    ring_nf

-- ---------- claim theorems ----------

/-- C4: the spec and the code's own `STOP_KEYS` declaration make the space
character a stop key that republishes the current snapshot, but `handle_key`
normalises with `key.lower().strip()` first, so `" "` becomes `""`, matches
nothing, and nothing is published; only `"x"` behaves as specified.  This
theorem evaluates the code at the failing input `" "` (and at `"x"` for
contrast). -/
theorem C4_space_stop_key_dead :
    [' '] ∈ STOP_KEYS ∧
    handle_key 1 ⟨[0, 0, 0, 0, 0, 0, 0]⟩ [' '] = (⟨[0, 0, 0, 0, 0, 0, 0]⟩, []) ∧
    handle_key 1 ⟨[0, 0, 0, 0, 0, 0, 0]⟩ ['x']
      = (⟨[0, 0, 0, 0, 0, 0, 0]⟩, [publish_target [0, 0, 0, 0, 0, 0, 0]]) :=
  ⟨by decide, rfl, rfl⟩

/-- C6: for every key in the jog table, `handle_key` changes exactly the
mapped joint's position by exactly `sign * step_size`, leaves every other
joint unchanged, and publishes exactly the updated snapshot. -/
theorem C6_jog_changes_exactly_one_joint (s : ℚ) (node : JogNode) (key : List Char)
    (idx : Nat) (sgn : Int) (hk : (key, idx, sgn) ∈ KEYMAP) (hlen : node.q.length = 7) :
    ∃ node' : JogNode,
      handle_key s node key = (node', [publish_target node'.q]) ∧
      node'.q.length = 7 ∧
      node'.q.getD idx 0 = node.q.getD idx 0 + (sgn : ℚ) * s ∧
      ∀ j, j ≠ idx → node'.q.getD j 0 = node.q.getD j 0 := by
  obtain ⟨hne, hnorm, hstop, hlook, hidx⟩ := keymap_entry_facts (key, idx, sgn) hk
  refine ⟨⟨node.q.set idx (node.q.getD idx 0 + (sgn : ℚ) * s)⟩, ?_, ?_, ?_, ?_⟩
  · exact handle_key_jog s node key idx sgn hne
      (by rw [hnorm]; exact hstop) (by rw [hnorm]; exact hlook)
  · simp [List.length_set, hlen]
  · exact getD_set_self _ _ _ (by rw [hlen]; exact hidx)
  · intro j hj
    exact getD_set_ne _ _ _ _ (fun h => hj h.symm)

/-- Witness for C6 at `s = 1`, the all-zero 7-joint state, and key `q`. -/
theorem C6_jog_changes_exactly_one_joint_witness :
    ((['q'], 0, (1 : Int)) ∈ KEYMAP ∧ (JogNode.mk [0, 0, 0, 0, 0, 0, 0]).q.length = 7) ∧
    (∃ node' : JogNode,
      handle_key 1 ⟨[0, 0, 0, 0, 0, 0, 0]⟩ ['q'] = (node', [publish_target node'.q]) ∧
      node'.q.length = 7 ∧
      node'.q.getD 0 0 = (JogNode.mk [0, 0, 0, 0, 0, 0, 0]).q.getD 0 0 + ((1 : Int) : ℚ) * 1 ∧
      ∀ j, j ≠ 0 → node'.q.getD j 0 = (JogNode.mk [0, 0, 0, 0, 0, 0, 0]).q.getD j 0) :=
  ⟨⟨by decide, rfl⟩,
   C6_jog_changes_exactly_one_joint 1 ⟨[0, 0, 0, 0, 0, 0, 0]⟩ ['q'] 0 1 (by decide) rfl⟩

/-- C7: from the all-zero joint state, the jog sequence `["q","q","a"]` with
step size `s` leaves joint 0 at exactly `s` and every other joint at 0. -/
theorem C7_qqa_round_trip (s : ℚ) :
    (run_keys s ⟨[0, 0, 0, 0, 0, 0, 0]⟩ [['q'], ['q'], ['a']]).q
      = [s, 0, 0, 0, 0, 0, 0] := by
  have e1 : handle_key s ⟨[0, 0, 0, 0, 0, 0, 0]⟩ ['q']
      = (⟨[s, 0, 0, 0, 0, 0, 0]⟩, [publish_target [s, 0, 0, 0, 0, 0, 0]]) := by
    rw [handle_key_jog s ⟨[0, 0, 0, 0, 0, 0, 0]⟩ ['q'] 0 1 (by decide) (by decide) (by decide)]
    norm_num
  have e2 : handle_key s ⟨[s, 0, 0, 0, 0, 0, 0]⟩ ['q']
      = (⟨[s + s, 0, 0, 0, 0, 0, 0]⟩, [publish_target [s + s, 0, 0, 0, 0, 0, 0]]) := by
    rw [handle_key_jog s ⟨[s, 0, 0, 0, 0, 0, 0]⟩ ['q'] 0 1 (by decide) (by decide) (by decide)]
    norm_num
  have e3 : handle_key s ⟨[s + s, 0, 0, 0, 0, 0, 0]⟩ ['a']
      = (⟨[s, 0, 0, 0, 0, 0, 0]⟩, [publish_target [s, 0, 0, 0, 0, 0, 0]]) := by
    rw [handle_key_jog s ⟨[s + s, 0, 0, 0, 0, 0, 0]⟩ ['a'] 0 (-1) (by decide) (by decide)
      (by decide)]
    norm_num
  simp only [run_keys_cons, run_keys_nil, e1, e2, e3]

/-- C9: the joint vector's length is 7 forever under any command sequence,
and — with a positive step — joint 0 can be driven past any bound, so
positions are never clamped. -/
theorem C9_length_invariant_and_unbounded (s B : ℚ) (hs : 0 < s) :
    (∀ (node : JogNode) (ks : List (List Char)),
        (run_keys s node ks).q.length = node.q.length) ∧
    (∃ ks : List (List Char),
        (run_keys s ⟨[0, 0, 0, 0, 0, 0, 0]⟩ ks).q.length = 7 ∧
        B < (run_keys s ⟨[0, 0, 0, 0, 0, 0, 0]⟩ ks).q.getD 0 0) := by
  refine ⟨fun node ks => run_keys_length s node ks, ?_⟩
  obtain ⟨n, hn⟩ := exists_nat_gt (B / s)
  refine ⟨List.replicate n ['q'], ?_, ?_⟩
  · rw [run_keys_length]
    rfl
  · rw [run_keys_replicate_q s n 0 [0, 0, 0, 0, 0, 0]]
    simp only [List.getD_cons_zero, zero_add]
    exact (div_lt_iff₀ hs).mp hn

/-- Witness for C9 at `s = 1`, `B = 5`. -/
theorem C9_length_invariant_and_unbounded_witness :
    (0 : ℚ) < 1 ∧
    ((∀ (node : JogNode) (ks : List (List Char)),
        (run_keys 1 node ks).q.length = node.q.length) ∧
     (∃ ks : List (List Char),
        (run_keys 1 ⟨[0, 0, 0, 0, 0, 0, 0]⟩ ks).q.length = 7 ∧
        (5 : ℚ) < (run_keys 1 ⟨[0, 0, 0, 0, 0, 0, 0]⟩ ks).q.getD 0 0)) :=
  ⟨by norm_num, C9_length_invariant_and_unbounded 1 5 (by norm_num)⟩

/-- C10: `handle_key` lowercases and strips the inbound key before the table
lookup, so the uppercase and the space-padded variants of every jog-table key
are dispatched exactly like the key itself. -/
theorem C10_key_normalisation (s : ℚ) (node : JogNode) (key : List Char)
    (idx : Nat) (sgn : Int) (hk : (key, idx, sgn) ∈ KEYMAP) :
    handle_key s node (key.map pyUpperChar) = handle_key s node key ∧
    handle_key s node (key ++ [' ']) = handle_key s node key ∧
    handle_key s node ([' '] ++ key) = handle_key s node key := by
  obtain ⟨hne, -, -, -, -⟩ := keymap_entry_facts (key, idx, sgn) hk
  obtain ⟨h1, h2, h3, h4, h5, h6⟩ := keymap_variant_facts (key, idx, sgn) hk
  exact ⟨handle_key_congr s node _ key h1 hne h4,
         handle_key_congr s node _ key h2 hne h5,
         handle_key_congr s node _ key h3 hne h6⟩

/-- Witness for C10 at `s = 1`, the all-zero state, and key `q` (so the
variants are `"Q"`, `"q "` and `" q"`). -/
theorem C10_key_normalisation_witness :
    ((['q'], 0, (1 : Int)) ∈ KEYMAP) ∧
    (handle_key 1 ⟨[0, 0, 0, 0, 0, 0, 0]⟩ (['q'].map pyUpperChar)
        = handle_key 1 ⟨[0, 0, 0, 0, 0, 0, 0]⟩ ['q'] ∧
     handle_key 1 ⟨[0, 0, 0, 0, 0, 0, 0]⟩ (['q'] ++ [' '])
        = handle_key 1 ⟨[0, 0, 0, 0, 0, 0, 0]⟩ ['q'] ∧
     handle_key 1 ⟨[0, 0, 0, 0, 0, 0, 0]⟩ ([' '] ++ ['q'])
        = handle_key 1 ⟨[0, 0, 0, 0, 0, 0, 0]⟩ ['q']) :=
  ⟨by decide, C10_key_normalisation 1 ⟨[0, 0, 0, 0, 0, 0, 0]⟩ ['q'] 0 1 (by decide)⟩

/-- C2 counterexample: on the concrete envelope whose payload decodes to a
dict with `cmd = "forward"` and a disconnected link, the handler performs
zero `connect()` calls and a single send attempt that reports not-connected —
it never attempts the claimed one-connect-then-retry. -/
theorem C2_counterexample :
    bak_handle_teleop_message
        (fun _ => .ok (.obj [("cmd".toList, .str ("forward".toList))]))
        ⟨true⟩ ⟨false, none⟩ ⟨some ("m".toList), none⟩
      = ⟨.forwarded ("forward".toList) .notConnected, ⟨false, none⟩, [], 0, 1⟩ ∧
    (bak_handle_teleop_message
        (fun _ => .ok (.obj [("cmd".toList, .str ("forward".toList))]))
        ⟨true⟩ ⟨false, none⟩ ⟨some ("m".toList), none⟩).connect_calls ≠ 1 :=
  ⟨rfl, by decide⟩

/-- C2 (amended): when a discrete-motion command arrives on a disconnected
link, the handler makes no `connect()` attempt and no retry: its single
`send_cmd_to_arduino` call reports not-connected, nothing is written, the
session is unchanged, and the command is dropped without queueing. -/
theorem C2_not_connected_drops_without_reconnect (parse : List Char → Except Unit JValue)
    (beh : SerialBehavior) (st : ArduinoState) (p : List Char)
    (fields : List (List Char × JValue)) (c : List Char) (sender : Option (List Char))
    (hne : p ≠ []) (hp : parse p = .ok (.obj fields))
    (hc : jlookup fields ("cmd".toList) = some (.str c)) (hall : c ∈ ALLOWED_CMDS)
    (hdisc : st.connected = false) :
    bak_handle_teleop_message parse beh st ⟨some p, sender⟩
      = ⟨.forwarded c .notConnected, st, [], 0, 1⟩ := by
  have hc' : jlookup fields ['c', 'm', 'd'] = some (JValue.str c) := hc
  simp [bak_handle_teleop_message, bak_handle_body, hne, hp, hc', hall,
    send_cmd_to_arduino, hdisc]

/-- Witness for the amended C2 on a concrete forward envelope. -/
theorem C2_not_connected_drops_without_reconnect_witness :
    (("m".toList ≠ ([] : List Char)) ∧
     ("forward".toList ∈ ALLOWED_CMDS) ∧
     (ArduinoState.mk false none).connected = false) ∧
    bak_handle_teleop_message
        (fun _ => .ok (.obj [("cmd".toList, .str ("forward".toList))]))
        ⟨false⟩ ⟨false, none⟩ ⟨some ("m".toList), none⟩
      = ⟨.forwarded ("forward".toList) .notConnected, ⟨false, none⟩, [], 0, 1⟩ :=
  ⟨⟨by decide, by decide, rfl⟩,
   C2_not_connected_drops_without_reconnect
     (fun _ => .ok (.obj [("cmd".toList, .str ("forward".toList))]))
     ⟨false⟩ ⟨false, none⟩ ("m".toList) [("cmd".toList, .str ("forward".toList))]
     ("forward".toList) none (by decide) rfl rfl (by decide) rfl⟩

/-- C3 counterexample: a write failure while connected leaves the session
marked connected — `send_cmd_to_arduino` catches the exception, logs it, and
never clears `arduino_ser`, so `is_connected` does not become false. -/
theorem C3_counterexample :
    send_cmd_to_arduino ⟨false⟩ ⟨true, some ("/dev/ttyUSB0".toList)⟩ ("forward".toList)
      = (⟨true, some ("/dev/ttyUSB0".toList)⟩, [], .errorLogged) ∧
    (send_cmd_to_arduino ⟨false⟩ ⟨true, some ("/dev/ttyUSB0".toList)⟩
        ("forward".toList)).1.connected = true :=
  ⟨rfl, rfl⟩

/-- C3 (amended): a `send_line` I/O failure on an active session is logged
and the session stays connected (`is_connected` remains true, nothing is
written); a subsequent successful `connect()` yields `is_connected = true`,
after which `send_line` succeeds and writes the command line. -/
theorem C3_write_failure_leaves_connected (beh beh2 : SerialBehavior) (st : ArduinoState)
    (cmd : List Char) (cands : List (List Char)) (probe_ok open_ok : List Char → Bool)
    (port : List Char) (hconn : st.connected = true) (hfail : beh.writeOk = false)
    (hfind : find_arduino_port cands probe_ok = some port) (hopen : open_ok port = true)
    (hok : beh2.writeOk = true) :
    send_cmd_to_arduino beh st cmd = (st, [], .errorLogged) ∧
    (init_arduino cands probe_ok open_ok).1.connected = true ∧
    send_cmd_to_arduino beh2 (init_arduino cands probe_ok open_ok).1 cmd
      = ((init_arduino cands probe_ok open_ok).1, [cmd ++ ['\n']], .sent) := by
  have hinit : init_arduino cands probe_ok open_ok = (⟨true, some port⟩, .connected port) := by
    simp [init_arduino, hfind, hopen]
  refine ⟨?_, ?_, ?_⟩
  · simp [send_cmd_to_arduino, hconn, hfail]
  · rw [hinit]
  · rw [hinit]
    simp [send_cmd_to_arduino, hok]

/-- Witness for the amended C3: failing write on a connected session, then a
successful reconnect on one candidate port, then a successful send. -/
theorem C3_write_failure_leaves_connected_witness :
    ((ArduinoState.mk true (some ("/dev/ttyUSB0".toList))).connected = true ∧
     (SerialBehavior.mk false).writeOk = false ∧
     find_arduino_port ["/dev/ttyUSB0".toList] (fun _ => true) = some ("/dev/ttyUSB0".toList) ∧
     (fun (_ : List Char) => true) ("/dev/ttyUSB0".toList) = true ∧
     (SerialBehavior.mk true).writeOk = true) ∧
    (send_cmd_to_arduino ⟨false⟩ ⟨true, some ("/dev/ttyUSB0".toList)⟩ ("forward".toList)
        = (⟨true, some ("/dev/ttyUSB0".toList)⟩, [], .errorLogged) ∧
     (init_arduino ["/dev/ttyUSB0".toList] (fun _ => true) (fun _ => true)).1.connected = true ∧
     send_cmd_to_arduino ⟨true⟩
        (init_arduino ["/dev/ttyUSB0".toList] (fun _ => true) (fun _ => true)).1
        ("forward".toList)
      = ((init_arduino ["/dev/ttyUSB0".toList] (fun _ => true) (fun _ => true)).1,
         [("forward".toList) ++ ['\n']], .sent)) :=
  ⟨⟨rfl, rfl, rfl, rfl, rfl⟩,
   C3_write_failure_leaves_connected ⟨false⟩ ⟨true⟩ ⟨true, some ("/dev/ttyUSB0".toList)⟩
     ("forward".toList) ["/dev/ttyUSB0".toList] (fun _ => true) (fun _ => true)
     ("/dev/ttyUSB0".toList) rfl rfl rfl rfl rfl⟩

/-- C5: on a connected, healthy link, an envelope whose decoded `cmd` is one
of the four allow-listed words produces exactly the one outbound line
`cmd ++ "\n"`; any other `cmd` value is logged as unknown and produces no
write on any link whatsoever. -/
theorem C5_allowlist_iff_write (parse : List Char → Except Unit JValue)
    (beh : SerialBehavior) (st : ArduinoState) (p : List Char)
    (fields : List (List Char × JValue)) (sender : Option (List Char))
    (hne : p ≠ []) (hp : parse p = .ok (.obj fields))
    (hconn : st.connected = true) (hw : beh.writeOk = true) :
    (∀ c : List Char, jlookup fields ("cmd".toList) = some (.str c) → c ∈ ALLOWED_CMDS →
      bak_handle_teleop_message parse beh st ⟨some p, sender⟩
        = ⟨.forwarded c .sent, st, [c ++ ['\n']], 0, 1⟩) ∧
    (∀ v : Option JValue, jlookup fields ("cmd".toList) = v →
      (∀ c ∈ ALLOWED_CMDS, v ≠ some (.str c)) →
      ∀ (beh2 : SerialBehavior) (st2 : ArduinoState),
        bak_handle_teleop_message parse beh2 st2 ⟨some p, sender⟩
          = ⟨.ignoredUnknown, st2, [], 0, 0⟩) := by
  constructor
  · intro c hc hcall
    have hc' : jlookup fields ['c', 'm', 'd'] = some (JValue.str c) := hc
    simp [bak_handle_teleop_message, bak_handle_body, hne, hp, hc', hcall,
      send_cmd_to_arduino, hconn, hw]
  · intro v hv hnall beh2 st2
    match v, hv with
    | none, hv =>
      have hv' : jlookup fields ['c', 'm', 'd'] = none := hv
      simp [bak_handle_teleop_message, bak_handle_body, hne, hp, hv']
    | some (.str c), hv =>
      have hv' : jlookup fields ['c', 'm', 'd'] = some (JValue.str c) := hv
      have hcnot : c ∉ ALLOWED_CMDS := fun hcall => (hnall c hcall) rfl
      simp [bak_handle_teleop_message, bak_handle_body, hne, hp, hv', hcnot]
    | some .null, hv =>
      have hv' : jlookup fields ['c', 'm', 'd'] = some JValue.null := hv
      simp [bak_handle_teleop_message, bak_handle_body, hne, hp, hv']
    | some (.bool b), hv =>
      have hv' : jlookup fields ['c', 'm', 'd'] = some (JValue.bool b) := hv
      simp [bak_handle_teleop_message, bak_handle_body, hne, hp, hv']
    | some (.num q), hv =>
      have hv' : jlookup fields ['c', 'm', 'd'] = some (JValue.num q) := hv
      simp [bak_handle_teleop_message, bak_handle_body, hne, hp, hv']
    | some (.arr xs), hv =>
      have hv' : jlookup fields ['c', 'm', 'd'] = some (JValue.arr xs) := hv
      simp [bak_handle_teleop_message, bak_handle_body, hne, hp, hv']
    | some (.obj fs), hv =>
      have hv' : jlookup fields ['c', 'm', 'd'] = some (JValue.obj fs) := hv
      simp [bak_handle_teleop_message, bak_handle_body, hne, hp, hv']

/-- Witness for C5: `cmd = "forward"` on a connected healthy link writes
exactly `"forward\n"`; `cmd = "jump"` writes nothing. -/
theorem C5_allowlist_iff_write_witness :
    (("m".toList ≠ ([] : List Char)) ∧
     (ArduinoState.mk true (some ("/dev/ttyUSB0".toList))).connected = true ∧
     (SerialBehavior.mk true).writeOk = true) ∧
    bak_handle_teleop_message
        (fun _ => .ok (.obj [("cmd".toList, .str ("forward".toList))]))
        ⟨true⟩ ⟨true, some ("/dev/ttyUSB0".toList)⟩ ⟨some ("m".toList), none⟩
      = ⟨.forwarded ("forward".toList) .sent, ⟨true, some ("/dev/ttyUSB0".toList)⟩,
         [("forward".toList) ++ ['\n']], 0, 1⟩ ∧
    bak_handle_teleop_message
        (fun _ => .ok (.obj [("cmd".toList, .str ("jump".toList))]))
        ⟨true⟩ ⟨true, some ("/dev/ttyUSB0".toList)⟩ ⟨some ("m".toList), none⟩
      = ⟨.ignoredUnknown, ⟨true, some ("/dev/ttyUSB0".toList)⟩, [], 0, 0⟩ :=
  ⟨⟨by decide, rfl, rfl⟩,
   (C5_allowlist_iff_write
      (fun _ => .ok (.obj [("cmd".toList, .str ("forward".toList))]))
      ⟨true⟩ ⟨true, some ("/dev/ttyUSB0".toList)⟩ ("m".toList)
      [("cmd".toList, .str ("forward".toList))] none (by decide) rfl rfl rfl).1
     ("forward".toList) rfl (by decide),
   (C5_allowlist_iff_write
      (fun _ => .ok (.obj [("cmd".toList, .str ("jump".toList))]))
      ⟨true⟩ ⟨true, some ("/dev/ttyUSB0".toList)⟩ ("m".toList)
      [("cmd".toList, .str ("jump".toList))] none (by decide) rfl rfl rfl).2
     (some (.str ("jump".toList))) rfl (str_not_allowed ("jump".toList) (by decide)) ⟨true⟩
     ⟨true, some ("/dev/ttyUSB0".toList)⟩⟩

/-- C1: both PubSub handlers are total on sender-controlled input: a missing
payload, a JSON parse failure, a non-object JSON value, an object without a
recognised `cmd`, a truthy non-string `key`, and an unknown string `key` all
make the handler return normally with the command absorbed as unknown —
nothing is written to hardware, nothing is published, and the session/joint
state are unchanged. -/
theorem C1_handlers_never_raise (parse : List Char → Except Unit JValue)
    (beh : SerialBehavior) (st : ArduinoState) (node : JogNode) (s : ℚ)
    (p : List Char) (sender : Option (List Char)) :
    (bak_handle_teleop_message parse beh st ⟨none, sender⟩ = ⟨.noMessage, st, [], 0, 0⟩ ∧
     gzb_handle_teleop_message parse s (some node) ⟨none, sender⟩
       = ⟨.noMessage, some node, []⟩) ∧
    (p ≠ [] → parse p = .error () →
      bak_handle_teleop_message parse beh st ⟨some p, sender⟩ = ⟨.errorCaught, st, [], 0, 0⟩ ∧
      gzb_handle_teleop_message parse s (some node) ⟨some p, sender⟩
        = ⟨.errorCaught, some node, []⟩) ∧
    (∀ v : JValue, p ≠ [] → parse p = .ok v → (∀ fields, v ≠ .obj fields) →
      bak_handle_teleop_message parse beh st ⟨some p, sender⟩ = ⟨.errorCaught, st, [], 0, 0⟩ ∧
      gzb_handle_teleop_message parse s (some node) ⟨some p, sender⟩
        = ⟨.errorCaught, some node, []⟩) ∧
    (∀ fields, p ≠ [] → parse p = .ok (.obj fields) →
      (∀ c ∈ ALLOWED_CMDS, jlookup fields ("cmd".toList) ≠ some (.str c)) →
      bak_handle_teleop_message parse beh st ⟨some p, sender⟩
        = ⟨.ignoredUnknown, st, [], 0, 0⟩) ∧
    (∀ fields v, p ≠ [] → parse p = .ok (.obj fields) →
      (jlookup fields ("key".toList)).getD .null = v →
      jFalsy v = false → (∀ k, v ≠ .str k) →
      gzb_handle_teleop_message parse s (some node) ⟨some p, sender⟩
        = ⟨.errorCaught, some node, []⟩) ∧
    (∀ fields k, p ≠ [] → parse p = .ok (.obj fields) →
      jlookup fields ("key".toList) = some (.str k) →
      normKey k ∉ STOP_KEYS → alookup (normKey k) KEYMAP = none →
      gzb_handle_teleop_message parse s (some node) ⟨some p, sender⟩
        = ⟨.keyHandled, some node, []⟩) := by
  refine ⟨⟨rfl, rfl⟩, ?_, ?_, ?_, ?_, ?_⟩
  · intro hne hperr
    constructor
    · simp [bak_handle_teleop_message, bak_handle_body, hne, hperr]
    · simp [gzb_handle_teleop_message, gzb_handle_body, hne, hperr]
  · intro v hne hpv hnotobj
    match v, hnotobj with
    | .obj fields, hnotobj => exact absurd rfl (hnotobj fields)
    | .null, _ =>
      exact ⟨by simp [bak_handle_teleop_message, bak_handle_body, hne, hpv],
             by simp [gzb_handle_teleop_message, gzb_handle_body, hne, hpv]⟩
    | .bool b, _ =>
      exact ⟨by simp [bak_handle_teleop_message, bak_handle_body, hne, hpv],
             by simp [gzb_handle_teleop_message, gzb_handle_body, hne, hpv]⟩
    | .num q, _ =>
      exact ⟨by simp [bak_handle_teleop_message, bak_handle_body, hne, hpv],
             by simp [gzb_handle_teleop_message, gzb_handle_body, hne, hpv]⟩
    | .str c, _ =>
      exact ⟨by simp [bak_handle_teleop_message, bak_handle_body, hne, hpv],
             by simp [gzb_handle_teleop_message, gzb_handle_body, hne, hpv]⟩
    | .arr xs, _ =>
      exact ⟨by simp [bak_handle_teleop_message, bak_handle_body, hne, hpv],
             by simp [gzb_handle_teleop_message, gzb_handle_body, hne, hpv]⟩
  · intro fields hne hp hnall
    cases hv : jlookup fields ['c', 'm', 'd'] with
    | none => simp [bak_handle_teleop_message, bak_handle_body, hne, hp, hv]
    | some v =>
      match v, hv with
      | .str c, hv =>
        have hcnot : c ∉ ALLOWED_CMDS := fun hc => hnall c hc hv
        simp [bak_handle_teleop_message, bak_handle_body, hne, hp, hv, hcnot]
      | .null, hv => simp [bak_handle_teleop_message, bak_handle_body, hne, hp, hv]
      | .bool b, hv => simp [bak_handle_teleop_message, bak_handle_body, hne, hp, hv]
      | .num q, hv => simp [bak_handle_teleop_message, bak_handle_body, hne, hp, hv]
      | .arr xs, hv => simp [bak_handle_teleop_message, bak_handle_body, hne, hp, hv]
      | .obj fs, hv => simp [bak_handle_teleop_message, bak_handle_body, hne, hp, hv]
  · intro fields v hne hp hkey hfal hnstr
    have hkey' : (jlookup fields ['k', 'e', 'y']).getD .null = v := hkey
    match v, hfal, hnstr with
    | .str k, _, hnstr => exact absurd rfl (hnstr k)
    | .null, hfal, _ => simp [jFalsy] at hfal
    | .bool b, hfal, _ =>
      simp [gzb_handle_teleop_message, gzb_handle_body, hne, hp, hkey',
        handle_key_value, hfal]
    | .num q, hfal, _ =>
      simp [gzb_handle_teleop_message, gzb_handle_body, hne, hp, hkey',
        handle_key_value, hfal]
    | .arr xs, hfal, _ =>
      simp [gzb_handle_teleop_message, gzb_handle_body, hne, hp, hkey',
        handle_key_value, hfal]
    | .obj fs, hfal, _ =>
      simp [gzb_handle_teleop_message, gzb_handle_body, hne, hp, hkey',
        handle_key_value, hfal]
  · intro fields k hne hp hkey hstop hlook
    have hkey' : jlookup fields ['k', 'e', 'y'] = some (.str k) := hkey
    by_cases hk0 : k = []
    · subst hk0
      simp [gzb_handle_teleop_message, gzb_handle_body, hne, hp, hkey',
        handle_key_value, jFalsy]
    · have hfal : jFalsy (.str k) = false := by simp [jFalsy, hk0]
      have hhk := handle_key_unknown s node k hk0 hstop hlook
      simp [gzb_handle_teleop_message, gzb_handle_body, hne, hp, hkey',
        handle_key_value, hfal, hhk]

/-- Witness for C1: a payload on which `json.loads` raises is absorbed by
both handlers with no effect. -/
theorem C1_handlers_never_raise_witness :
    (("m".toList ≠ ([] : List Char)) ∧
     (fun (_ : List Char) => (.error () : Except Unit JValue)) ("m".toList) = .error ()) ∧
    (bak_handle_teleop_message (fun _ => .error ()) ⟨true⟩ ⟨false, none⟩
        ⟨some ("m".toList), none⟩ = ⟨.errorCaught, ⟨false, none⟩, [], 0, 0⟩ ∧
     gzb_handle_teleop_message (fun _ => .error ()) 1 (some ⟨[0, 0, 0, 0, 0, 0, 0]⟩)
        ⟨some ("m".toList), none⟩ = ⟨.errorCaught, some ⟨[0, 0, 0, 0, 0, 0, 0]⟩, []⟩) :=
  ⟨⟨by decide, rfl⟩,
   (C1_handlers_never_raise (fun _ => .error ()) ⟨true⟩ ⟨false, none⟩
     ⟨[0, 0, 0, 0, 0, 0, 0]⟩ 1 ("m".toList) none).2.1 (by decide) rfl⟩

/-- C8: with zero discovered candidates, discovery yields no device,
`init_arduino` establishes no session, and every subsequent send on the
unconnected session reports not-connected, writes nothing, returns normally
and leaves the state unchanged. -/
theorem C8_no_device_no_session (probe_ok open_ok : List Char → Bool)
    (beh : SerialBehavior) (cmd : List Char) (st : ArduinoState)
    (hst : st.connected = false) :
    find_arduino_port [] probe_ok = none ∧
    init_arduino [] probe_ok open_ok = (⟨false, none⟩, .noDeviceFound) ∧
    send_cmd_to_arduino beh st cmd = (st, [], .notConnected) := by
  refine ⟨rfl, rfl, ?_⟩
  simp [send_cmd_to_arduino, hst]

/-- Witness for C8 at the state produced by a zero-candidate init. -/
theorem C8_no_device_no_session_witness :
    (ArduinoState.mk false none).connected = false ∧
    (find_arduino_port [] (fun _ => true) = none ∧
     init_arduino [] (fun _ => true) (fun _ => true) = (⟨false, none⟩, .noDeviceFound) ∧
     send_cmd_to_arduino ⟨true⟩ ⟨false, none⟩ ("forward".toList)
       = (⟨false, none⟩, [], .notConnected)) :=
  ⟨rfl, C8_no_device_no_session (fun _ => true) (fun _ => true) ⟨true⟩
    ("forward".toList) ⟨false, none⟩ rfl⟩
